import Mathlib

/-!
# Verification of the samfirm.js acquisition core

Shallow embedding of the firmware-acquisition program: the identifier
rewrite table (`src/utils/modelTransformer.ts`), the version resolver and
session header handler (`src/index.ts`), the authenticated streaming
download pipeline (`src/index.ts`), the direct-acquisition probe
(`src/utils/directDownload.ts`) and the mirror upload throttle
(`src/utils/gofileUpload.ts`), together with theorems checking the
specification's claims against these definitions.

JavaScript values that may be `undefined` are embedded as `Option`;
template-literal interpolation of a possibly-`undefined` value is embedded
by `jsTemplate`, which renders `undefined` as the string "undefined",
exactly as a JS template literal does.
-/

namespace Samfirm

/-! ## Identifier rewriting (`src/utils/modelTransformer.ts`) -/

/-- The rewrite table `MODEL_TRANSFORMATIONS` from
`src/utils/modelTransformer.ts`, embedded as an association list in
declaration order. -/
def MODEL_TRANSFORMATIONS : List (String × String) :=
  [("s906b", "s916b"),
   ("S906B", "S916B"),
   ("SM-S906B", "SM-S916B"),
   ("sm-s906b", "sm-s916b")]

/-- Property keys of `Object.prototype`: the bracket lookup
`MODEL_TRANSFORMATIONS[originalModel]` on an object literal traverses the
prototype chain, so these keys resolve to inherited members even though
they are not own entries of the table. -/
def OBJECT_PROTOTYPE_KEYS : List String :=
  ["constructor", "hasOwnProperty", "isPrototypeOf", "propertyIsEnumerable",
   "toLocaleString", "toString", "valueOf", "__proto__", "__defineGetter__",
   "__defineSetter__", "__lookupGetter__", "__lookupSetter__"]

/-- A JavaScript value that can result from reading a property of the
rewrite table: an own string entry, or a member inherited from
`Object.prototype` (a function, or the prototype object for `__proto__`),
identified by its key — a non-string value that is never strictly equal
to any string. -/
inductive JsValue where
  | str (s : String)
  | inheritedMember (key : String)
  deriving Repr, DecidableEq

instance : Coe String JsValue := ⟨.str⟩

/-- The JS property read `table[key]` on an object literal: an own entry
wins; otherwise the prototype chain supplies the `Object.prototype`
member of that name; otherwise the read yields `undefined` (`none`). -/
def jsObjectGet (table : List (String × String)) (key : String) : Option JsValue :=
  match table.lookup key with
  | some v => some (.str v)
  | none =>
    if OBJECT_PROTOTYPE_KEYS.contains key then some (.inheritedMember key)
    else none

/-- JS truthiness of a `JsValue`: the empty string is falsy; inherited
`Object.prototype` members (functions, the prototype object) are truthy. -/
def jsTruthy : JsValue → Bool
  | .str s => s != ""
  | .inheritedMember _ => true

/-- The JS `||` operator over a possibly-`undefined` left operand. -/
def jsOr (a : Option JsValue) (b : JsValue) : JsValue :=
  match a with
  | some v => if jsTruthy v then v else b
  | none => b

/-- Result record of `transformModel`. `transformed` is a `JsValue`
because the runtime lookup can produce an inherited non-string member
despite the `Record<string, string>` annotation. -/
structure ModelInfo where
  original : String
  transformed : JsValue
  wasTransformed : Bool
  deriving Repr, DecidableEq

/-- `transformModel` from `src/utils/modelTransformer.ts`:
`transformed = MODEL_TRANSFORMATIONS[originalModel] || originalModel`,
`wasTransformed = transformed !== originalModel`, with the bracket lookup
embedded prototype chain included (`jsObjectGet`) and `||` by JS
truthiness (`jsOr`). Strict inequality against the input string is
decided by `JsValue` equality: an inherited member is never equal to a
string. -/
def transformModel (originalModel : String) : ModelInfo :=
  let transformed := jsOr (jsObjectGet MODEL_TRANSFORMATIONS originalModel) (.str originalModel)
  { original := originalModel
    transformed := transformed
    wasTransformed := transformed != .str originalModel }

/-! ## Authenticated path: output folder and request model (`src/index.ts`, `main`) -/

/-- The output folder computed in `main`
(`src/index.ts`): built from `modelInfo.original` and the region,
`${modelInfo.original}_${region}/` (the `process.cwd()` prefix is elided). -/
def mainOutputFolder (model region : String) : String :=
  (transformModel model).original ++ "_" ++ region ++ "/"

/-- The model identifier `main` uses for all network requests
(`processedModel = modelInfo.transformed` in `src/index.ts`); a `JsValue`
since the lookup can produce an inherited member. -/
def mainRequestModel (model : String) : JsValue :=
  (transformModel model).transformed

/-! ## Version resolution (`src/index.ts`, `getLatestVersion`) -/

/-- Accumulator loop for `jsSplit`: collects the current field (reversed)
and emits it at each separator and at end of input. -/
def jsSplitGo (sep : Char) : List Char → List Char → List String
  | [], acc => [String.mk acc.reverse]
  | c :: cs, acc =>
    if c = sep then String.mk acc.reverse :: jsSplitGo sep cs []
    else jsSplitGo sep cs (c :: acc)

/-- JavaScript `String.prototype.split` with a single-character separator,
as used by `latest.split("/")` in `src/index.ts`: every occurrence of the
separator ends a field, a trailing separator yields a trailing empty
field, and the empty input yields `[""]`. -/
def jsSplit (sep : Char) (s : String) : List String :=
  jsSplitGo sep s.data []

/-- The destructured result of
`versioninfo.firmware.version.latest.split("/")`: JS array destructuring
yields `undefined` for a missing component, embedded as `none`. -/
structure VersionTriple where
  pda : Option String
  csc : Option String
  modem : Option String
  deriving Repr, DecidableEq

/-- `getLatestVersion` from `src/index.ts`, restricted to its pure core:
given the manifest's `latest` field, split on "/" and destructure the
first three components (`const [pda, csc, modem] = latest.split("/")`). -/
def getLatestVersion (latest : String) : VersionTriple :=
  let parts := jsSplit '/' latest
  { pda := parts.get? 0, csc := parts.get? 1, modem := parts.get? 2 }

/-- JS template-literal rendering of a possibly-`undefined` string. -/
def jsTemplate : Option String → String
  | some s => s
  | none => "undefined"

/-- The version string `main` sends in the BinaryInform request
(`src/index.ts`):
`${pda}/${csc}/${modem !== "" ? modem : pda}/${pda}`. -/
def binaryInformVersion (pda csc modem : Option String) : String :=
  jsTemplate pda ++ "/" ++ jsTemplate csc ++ "/" ++
    (if modem != some "" then jsTemplate modem else jsTemplate pda) ++ "/" ++
    jsTemplate pda

/-! ## Session header handling (`src/index.ts`, `handleHeaders`) -/

/-- The mutable `nonce` object of `main`: `{ encrypted, decrypted }`. -/
structure NonceState where
  encrypted : String
  decrypted : String
  deriving Repr, DecidableEq

/-- The session-scoped mutable state of `main`: the `nonce` object plus
the `headers` record (its `Authorization` and `Cookie` entries, both
absent initially). -/
structure SessionState where
  nonce : NonceState
  authorization : Option String
  cookie : Option String
  deriving Repr, DecidableEq

/-- The response headers `handleHeaders` inspects: the optional `nonce`
header and the `set-cookie` list. -/
structure ResponseHeaders where
  nonce : Option String
  setCookie : List String
  deriving Repr, DecidableEq

/-- Result of the external collaborator `handleAuthRotation`
(`src/utils/authUtils`): a fresh `Authorization` value together with the
rotated nonce pair. The collaborator itself is opaque to the core; the
theorems quantify over it. -/
structure AuthRotation where
  auth : String
  nonce : NonceState
  deriving Repr, DecidableEq

/-- `handleHeaders` from `main` in `src/index.ts`: if the response carries
a `nonce` header, rotate the nonce via `handleAuthRotation` and overwrite
`headers.Authorization`; independently, if a `set-cookie` entry starts
with "JSESSIONID", store its first ";"-delimited part as `headers.Cookie`.
The opaque collaborator is passed in as `rotate`. -/
def handleHeaders (rotate : String → AuthRotation) (st : SessionState)
    (resp : ResponseHeaders) : SessionState :=
  let st :=
    match resp.nonce with
    | some n => { st with nonce := (rotate n).nonce, authorization := some (rotate n).auth }
    | none => st
  let sessionID :=
    (resp.setCookie.find? (·.startsWith "JSESSIONID")).map
      (fun c => (jsSplit ';' c).headD c)
  match sessionID with
  | some s => { st with cookie := some s }
  | none => st

/-! ## Authenticated streaming download pipeline (`src/index.ts`, `main`) -/

/-- Observable events of the authenticated download stream in `main`:
a `data` event delivering a buffer of `len` encrypted bytes, or the
`finish` event of one extracted archive entry's write stream. -/
inductive DlEvent where
  | data (len : Nat)
  | entryFinish
  deriving Repr, DecidableEq

/-- Terminal outcome of the authenticated download in `main`:
`exitSuccess` is the `process.exit()` call, `incompleteDownload` is the
`IncompleteDownload` failure named by the specification, and
`streamEnded` means the event stream ended without the success exit and
without any raised failure. -/
inductive PipelineOutcome where
  | exitSuccess
  | incompleteDownload
  | streamEnded
  deriving Repr, DecidableEq

/-- Total number of bytes delivered by the `data` events of a trace. -/
def sumData : List DlEvent → Nat
  | [] => 0
  | .data len :: rest => len + sumData rest
  | .entryFinish :: rest => sumData rest

/-- The download accounting of `main` (`src/index.ts` lines 200–217):
each `data` event adds `buffer.length` to `downloadedSize`; each entry
`finish` event runs `if (downloadedSize === binaryByteSize) process.exit()`.
No other termination is coded, so an exhausted trace that never took the
success exit ends as `streamEnded`. -/
def runAuthPipeline (byteSize : Nat) : List DlEvent → Nat → PipelineOutcome
  | [], _ => .streamEnded
  | .data len :: rest, downloadedSize => runAuthPipeline byteSize rest (downloadedSize + len)
  | .entryFinish :: rest, downloadedSize =>
    if downloadedSize = byteSize then .exitSuccess
    else runAuthPipeline byteSize rest downloadedSize

/-! ## Direct acquisition probe (`src/utils/directDownload.ts`) -/

/-- One probed candidate: its URL together with the outcome of
`testFirmwareUrl` — whether the HEAD probe reported the URL accessible,
and the parsed `content-length` (absent when the probe failed). -/
structure ProbeResult where
  url : String
  accessible : Bool
  size : Option Nat
  deriving Repr, DecidableEq

/-- The selection condition of `findAccessibleFirmwareUrl`
(`src/utils/directDownload.ts` line 123):
`result.accessible && result.size && result.size > 1000000` — a missing
or zero size is falsy in JS. -/
def probeGood (r : ProbeResult) : Bool :=
  r.accessible &&
    (match r.size with
     | some s => s != 0 && decide (1000000 < s)
     | none => false)

/-- `findAccessibleFirmwareUrl` from `src/utils/directDownload.ts`: probe
candidates in batches of 5 (`batchSize = 5`), collect each batch's
results in candidate order (`Promise.all` preserves input order whatever
the completion order), scan the batch in order for the first result
satisfying `probeGood`, and move to the next batch when none matches. -/
def findAccessibleFirmwareUrl : List ProbeResult → Option ProbeResult
  | [] => none
  | r :: rs =>
    match ((r :: rs).take 5).find? probeGood with
    | some hit => some hit
    | none => findAccessibleFirmwareUrl ((r :: rs).drop 5)
termination_by rs => rs.length
decreasing_by simp [List.length_drop]; omega

/-- Failure modes of the bypass path. `noMirrorFound` embeds the
`throw new Error('No accessible firmware URLs found...')` of
`directDownloadWorkflow`; `downloadFailed` embeds a failure of the
subsequent direct download. -/
inductive DirectError where
  | noMirrorFound
  | downloadFailed
  deriving Repr, DecidableEq

/-- `directDownloadWorkflow` from `src/utils/directDownload.ts`: run the
probe; if it finds no URL, throw `noMirrorFound`; otherwise download the
file (the network download itself is abstracted as the `download`
argument, returning the written file path). -/
def directDownloadWorkflow (probes : List ProbeResult)
    (download : ProbeResult → Except DirectError String) : Except DirectError String :=
  match findAccessibleFirmwareUrl probes with
  | none => .error .noMirrorFound
  | some u => download u

/-- The bypass path of `mainBypassDownload` (`src/index.ts` lines 225–299)
after version resolution: run `directDownloadWorkflow`; only when it
returns a file does `uploadFirmwareToGofile` run; a thrown error is caught
and the process exits with failure, never reaching the upload. The second
component records whether the upload was invoked. -/
def mainBypassDownload (probes : List ProbeResult)
    (download : ProbeResult → Except DirectError String) :
    Except DirectError String × Bool :=
  match directDownloadWorkflow probes download with
  | .error e => (.error e, false)
  | .ok file => (.ok file, true)

/-- The input record of `constructFirmwareUrls`. -/
structure DirectFirmwareInfo where
  model : String
  region : String
  pda : String
  csc : String
  modem : String
  deriving Repr, DecidableEq

/-- `possibleFilenames` from `constructFirmwareUrls`
(`src/utils/directDownload.ts` lines 26–33), in declaration order. -/
def possibleFilenames (info : DirectFirmwareInfo) : List String :=
  [info.model ++ "_" ++ info.pda ++ "_" ++ info.csc ++ "_" ++ info.modem ++ "_HOME.tar.md5",
   info.model ++ "_" ++ info.pda ++ "_" ++ info.csc ++ "_" ++ info.modem ++ ".tar.md5",
   info.model ++ "_" ++ info.region ++ "_" ++ info.pda ++ "_" ++ info.csc ++ "_" ++ info.modem ++ "_HOME.tar.md5",
   info.model ++ "_" ++ info.region ++ "_" ++ info.pda ++ "_" ++ info.csc ++ "_" ++ info.modem ++ ".tar.md5",
   info.pda ++ "_" ++ info.csc ++ "_" ++ info.modem ++ "_HOME.tar.md5",
   info.pda ++ "_" ++ info.csc ++ "_" ++ info.modem ++ ".tar.md5"]

/-- `baseUrls` from `constructFirmwareUrls`
(`src/utils/directDownload.ts` lines 35–40), in declaration order. -/
def baseUrls : List String :=
  ["http://cloud-neofussvr.sslcs.cdngc.net/NF_DownloadBinaryForMass.do?file=",
   "https://cloud-neofussvr.sslcs.cdngc.net/NF_DownloadBinaryForMass.do?file=",
   "http://neofussvr.sslcs.cdngc.net/NF_DownloadBinaryForMass.do?file=",
   "https://neofussvr.sslcs.cdngc.net/NF_DownloadBinaryForMass.do?file="]

/-- `pathPatterns` from `constructFirmwareUrls`
(`src/utils/directDownload.ts` lines 42–49), in declaration order. -/
def pathPatterns (info : DirectFirmwareInfo) : List String :=
  ["/neofus/firmware/" ++ info.region ++ "/" ++ info.model ++ "/" ++ info.pda ++ "/",
   "/neofus/firmware/" ++ info.region ++ "/" ++ info.model ++ "/",
   "/firmware/" ++ info.region ++ "/" ++ info.model ++ "/" ++ info.pda ++ "/",
   "/firmware/" ++ info.region ++ "/" ++ info.model ++ "/",
   "/" ++ info.region ++ "/" ++ info.model ++ "/" ++ info.pda ++ "/",
   "/" ++ info.region ++ "/" ++ info.model ++ "/"]

/-- `constructFirmwareUrls` from `src/utils/directDownload.ts`: the three
nested `for` loops pushing `${baseUrl}${pathPattern}${filename}`, with the
base URL outermost, the path pattern next, and the filename innermost. -/
def constructFirmwareUrls (info : DirectFirmwareInfo) : List String :=
  baseUrls.flatMap fun baseUrl =>
    (pathPatterns info).flatMap fun pathPattern =>
      (possibleFilenames info).map fun filename =>
        baseUrl ++ pathPattern ++ filename

/-- Modelled from the spec: the Cartesian-product description of the
candidate set — "the Cartesian product of {known base hostnames} × {known
path templates} × {known filename templates}", base URL outermost. Stated
with `List.product` so that `constructFirmwareUrls` can be compared
against it. -/
def cartesianCandidateSet (info : DirectFirmwareInfo) : List String :=
  ((baseUrls.product (pathPatterns info)).product (possibleFilenames info)).map
    fun x => x.1.1 ++ x.1.2 ++ x.2

/-! ## Mirror upload throttle (`src/utils/gofileUpload.ts`) -/

/-- One invocation of the progress callback inside
`uploadFirmwareToGofile`: the wall-clock time `Date.now()` at the moment
of the chunk, and the cumulative uploaded byte count passed by
`uploadToGofile` (which fires the callback once per `data` chunk). -/
structure UploadChunk where
  now : Int
  uploaded : Nat
  deriving Repr, DecidableEq

/-- The closure state of `uploadFirmwareToGofile`'s progress callback:
`lastProgressTime` and `lastUploadedBytes`. -/
structure ThrottleState where
  lastProgressTime : Int
  lastUploadedBytes : Nat
  deriving Repr, DecidableEq

/-- One progress-reporting event during the mirror upload: `chunkLine` is
the `process.stdout.write` of an "Uploaded: X/Y bytes" line that
`uploadToGofile` performs on every chunk (`src/utils/gofileUpload.ts`
line 80); `speedReport` is the `console.log` of the upload speed emitted
by the throttled callback of `uploadFirmwareToGofile` (lines 147–163). -/
inductive ProgressReport where
  | chunkLine (now : Int) (uploaded : Nat)
  | speedReport (now : Int)
  deriving Repr, DecidableEq

/-- Timestamp of a reporting event. -/
def reportTime : ProgressReport → Int
  | .chunkLine now _ => now
  | .speedReport now => now

/-- Timestamp of a reporting event when it is a throttled speed report. -/
def speedTime : ProgressReport → Option Int
  | .speedReport now => some now
  | .chunkLine _ _ => none

/-- Whether a reporting event is the per-chunk "Uploaded" line. -/
def isChunkLine : ProgressReport → Bool
  | .chunkLine _ _ => true
  | .speedReport _ => false

/-- The reporting trace of the mirror upload
(`src/utils/gofileUpload.ts`): for every `data` chunk, `uploadToGofile`
invokes `onProgress` — the callback of `uploadFirmwareToGofile`, which
emits a speed report only when `now - lastProgressTime > 2000` and then
resets both closure variables to the current chunk — and afterwards
unconditionally writes the "Uploaded" progress line. -/
def uploadReportTrace : List UploadChunk → ThrottleState → List ProgressReport
  | [], _ => []
  | c :: rest, st =>
    if 2000 < c.now - st.lastProgressTime then
      .speedReport c.now :: .chunkLine c.now c.uploaded ::
        uploadReportTrace rest ⟨c.now, c.uploaded⟩
    else
      .chunkLine c.now c.uploaded :: uploadReportTrace rest st

/-! ## Helper lemmas -/

/-- Batching in `findAccessibleFirmwareUrl` is transparent: scanning
5-element batches in order and taking the first `probeGood` hit of the
earliest batch containing one selects exactly the first `probeGood`
candidate of the whole list in generation order. -/
theorem findAccessible_eq_findFirst (rs : List ProbeResult) :
    findAccessibleFirmwareUrl rs = rs.find? probeGood := by
  induction rs using findAccessibleFirmwareUrl.induct with
  | case1 => rw [findAccessibleFirmwareUrl]; rfl
  | case2 r rs hit hhit =>
      rw [findAccessibleFirmwareUrl, hhit]
      conv_rhs => rw [← List.take_append_drop 5 (r :: rs)]
      rw [List.find?_append, hhit]
      rfl
  | case3 r rs hnone ih =>
      rw [findAccessibleFirmwareUrl, hnone, ih]
      conv_rhs => rw [← List.take_append_drop 5 (r :: rs)]
      rw [List.find?_append, hnone]
      rfl

/-- Accumulator generalisation for the truncation property: if the bytes
already counted plus all bytes still to arrive stay strictly below
`byteSize`, the success guard can never fire. -/
theorem runAuthPipeline_short (byteSize : Nat) (events : List DlEvent) :
    ∀ downloadedSize, downloadedSize + sumData events < byteSize →
      runAuthPipeline byteSize events downloadedSize = .streamEnded := by
  induction events with
  | nil => intro acc _; rfl
  | cons e rest ih =>
      intro acc hacc
      cases e with
      | data len =>
          simp only [sumData] at hacc
          exact ih (acc + len) (by omega)
      | entryFinish =>
          simp only [sumData] at hacc
          have hne : acc ≠ byteSize := by omega
          simp only [runAuthPipeline, if_neg hne]
          exact ih acc hacc

/-! ## Claim theorems -/

/-- C1 (counterexample): a stream truncated before `byteSize` bytes does
not make the pipeline fail with `IncompleteDownload`. Concretely, with
`byteSize = 10` and a stream delivering only 5 bytes before ending, the
coded pipeline just ends (`streamEnded`) — no `IncompleteDownload`
failure exists anywhere in the code. -/
theorem pipeline_truncation_raises_no_error :
    sumData [.data 5, .entryFinish] < 10 ∧
      runAuthPipeline 10 [.data 5, .entryFinish] 0 ≠ .incompleteDownload := by
  refine ⟨by decide, ?_⟩
  decide

/-- C1 (amended): completion (`process.exit()`) is reported only when the
cumulative received byte count equals `binaryByteSize` exactly, so a
stream that ends before `byteSize` bytes never reports completion; but
the code raises no `IncompleteDownload` failure — the truncated run
simply ends without any terminal report. -/
theorem pipeline_truncation_never_reports_completion
    (byteSize : Nat) (events : List DlEvent) (h : sumData events < byteSize) :
    runAuthPipeline byteSize events 0 = .streamEnded ∧
      runAuthPipeline byteSize events 0 ≠ .exitSuccess := by
  have hrun := runAuthPipeline_short byteSize events 0 (by omega)
  exact ⟨hrun, by rw [hrun]; intro hc; cases hc⟩

/-- C1 (witness): the amended theorem evaluated on a concrete truncated
stream (7 of 9 bytes received). -/
theorem pipeline_truncation_never_reports_completion_inst :
    sumData [.data 3, .data 4, .entryFinish] < 9 ∧
      runAuthPipeline 9 [.data 3, .data 4, .entryFinish] 0 = .streamEnded :=
  ⟨by decide,
   (pipeline_truncation_never_reports_completion 9 [.data 3, .data 4, .entryFinish]
      (by decide)).1⟩

/-- C2: `findAccessibleFirmwareUrl` returns exactly the first candidate in
generation order satisfying the selection rule (`accessible` with size
strictly above 1 MB), independently of the 5-element batch boundaries and
of completion order within a batch (`Promise.all` stores each probe's
result at its candidate's index). In particular, on a 7-candidate set
whose only good candidate is #7 (accessible, size 2 000 000), it returns
candidate #7. -/
theorem probe_first_accessible_in_generation_order :
    (∀ rs : List ProbeResult, findAccessibleFirmwareUrl rs = rs.find? probeGood) ∧
      findAccessibleFirmwareUrl
        [⟨"u1", false, none⟩, ⟨"u2", false, none⟩, ⟨"u3", true, some 0⟩,
         ⟨"u4", false, some 2000000⟩, ⟨"u5", true, some 900000⟩,
         ⟨"u6", false, none⟩, ⟨"u7", true, some 2000000⟩] =
        some ⟨"u7", true, some 2000000⟩ := by
  refine ⟨findAccessible_eq_findFirst, ?_⟩
  rw [findAccessible_eq_findFirst]
  decide

/-- C3: in `handleHeaders`, the nonce state and the `Authorization` header
are rewritten exactly when the response carries a `nonce` header, and then
the new `Authorization` is the one derived by `handleAuthRotation` from
that fresh nonce; with no `nonce` header both the stored nonce state
(encrypted and decrypted) and the `Authorization` header are left
untouched (only the cookie may change). Quantified over the opaque
rotation collaborator. -/
theorem handleHeaders_auth_rotation
    (rotate : String → AuthRotation) (st : SessionState) (resp : ResponseHeaders) :
    ((handleHeaders rotate st resp).nonce,
      (handleHeaders rotate st resp).authorization) =
      match resp.nonce with
      | none => (st.nonce, st.authorization)
      | some n => ((rotate n).nonce, some (rotate n).auth) := by
  cases hn : resp.nonce <;>
    simp only [handleHeaders, hn] <;>
    cases hs : (resp.setCookie.find? (·.startsWith "JSESSIONID")).map
      (fun c => (jsSplit ';' c).headD c) <;>
    simp [hs]

/-- C4 (counterexample): a two-component `latest` field does not produce
an empty-string `modem`. Concretely `"A/B"` splits into exactly two
components and the destructured `modem` is `undefined` (`none`), which is
distinct from the empty string. -/
theorem two_component_modem_not_empty_string :
    (jsSplit '/' "A/B").length = 2 ∧ (getLatestVersion "A/B").modem ≠ some "" := by
  decide

/-- C4 (amended): for every manifest whose `/`-delimited latest-version
field contains only two components, `getLatestVersion` returns a triple
whose `modem` is `undefined` (absent) — JS array destructuring of a
two-element array yields `undefined`, not the empty string — and the
downstream `modem !== ""` test therefore does not treat it as empty. -/
theorem two_component_modem_undefined (latest : String)
    (h : (jsSplit '/' latest).length = 2) :
    (getLatestVersion latest).modem = none := by
  simp only [getLatestVersion]
  exact List.get?_eq_none.mpr (by omega)

/-- C4 (witness): the amended theorem evaluated at the two-component
manifest field `"A/B"`. -/
theorem two_component_modem_undefined_inst :
    (jsSplit '/' "A/B").length = 2 ∧ (getLatestVersion "A/B").modem = none :=
  ⟨by decide, two_component_modem_undefined "A/B" (by decide)⟩

/-- C5: whenever the resolved triple's `modem` is the empty string, the
version string sent in the BinaryInform request substitutes `pda` in the
modem position (`${pda}/${csc}/${modem !== "" ? modem : pda}/${pda}`). -/
theorem emptyModem_substitutes_pda (latest : String)
    (h : (getLatestVersion latest).modem = some "") :
    binaryInformVersion (getLatestVersion latest).pda (getLatestVersion latest).csc
        (getLatestVersion latest).modem =
      jsTemplate (getLatestVersion latest).pda ++ "/" ++
        jsTemplate (getLatestVersion latest).csc ++ "/" ++
        jsTemplate (getLatestVersion latest).pda ++ "/" ++
        jsTemplate (getLatestVersion latest).pda := by
  rw [binaryInformVersion, h]
  simp

/-- C5 (witness): the theorem evaluated at the manifest field `"A/B/"`,
whose trailing separator resolves `modem` to the empty string. -/
theorem emptyModem_substitutes_pda_inst :
    (getLatestVersion "A/B/").modem = some "" ∧
      binaryInformVersion (getLatestVersion "A/B/").pda (getLatestVersion "A/B/").csc
          (getLatestVersion "A/B/").modem =
        jsTemplate (getLatestVersion "A/B/").pda ++ "/" ++
          jsTemplate (getLatestVersion "A/B/").csc ++ "/" ++
          jsTemplate (getLatestVersion "A/B/").pda ++ "/" ++
          jsTemplate (getLatestVersion "A/B/").pda :=
  ⟨by decide, emptyModem_substitutes_pda "A/B/" (by decide)⟩

/-- C6: when no candidate in the probe set satisfies the selection rule —
in particular when the only accessible candidate reports a size below the
1 MB threshold — the probe yields nothing, `directDownloadWorkflow`
terminates the bypass attempt with `noMirrorFound`, and the mirror upload
is never invoked (second component `false`). Quantified over the
abstracted download step. -/
theorem bypass_no_candidate_noMirrorFound (probes : List ProbeResult)
    (download : ProbeResult → Except DirectError String)
    (h : ∀ r ∈ probes, probeGood r = false) :
    mainBypassDownload probes download = (.error .noMirrorFound, false) := by
  have hfind : findAccessibleFirmwareUrl probes = none := by
    rw [findAccessible_eq_findFirst]
    exact List.find?_eq_none.mpr fun r hr => by simp [h r hr]
  simp [mainBypassDownload, directDownloadWorkflow, hfind]

/-- C6 (witness): the theorem evaluated on a candidate set whose only
accessible candidate reports size 500 000, below the 1 MB threshold. -/
theorem bypass_no_candidate_noMirrorFound_inst :
    (∀ r ∈ [(⟨"only", true, some 500000⟩ : ProbeResult), ⟨"dead", false, none⟩],
        probeGood r = false) ∧
      mainBypassDownload [⟨"only", true, some 500000⟩, ⟨"dead", false, none⟩]
          (fun _ => .ok "firmware.tar.md5") =
        (.error .noMirrorFound, false) :=
  ⟨by decide,
   bypass_no_candidate_noMirrorFound _ (fun _ => .ok "firmware.tar.md5") (by decide)⟩

/-- C7: the candidate list of `constructFirmwareUrls` is exactly the
Cartesian product of the 4 base URLs, 6 path patterns and 6 filename
templates instantiated with the given info — base URL outermost, path
pattern next, filename innermost — and has 144 = 4 · 6 · 6 elements. -/
theorem constructFirmwareUrls_is_cartesian_product (info : DirectFirmwareInfo) :
    constructFirmwareUrls info = cartesianCandidateSet info ∧
      (constructFirmwareUrls info).length = 144 ∧
      baseUrls.length = 4 ∧ (pathPatterns info).length = 6 ∧
      (possibleFilenames info).length = 6 := by
  refine ⟨?_, rfl, rfl, rfl, rfl⟩
  rfl

/-- C8 (counterexample): reporting does not fire at most once per
2-second window. With two chunks at 2500 ms and 3000 ms (initial
`lastProgressTime` 0), the trace holds three reporting events at times
2500, 2500 and 3000 — the per-chunk "Uploaded" line of `uploadToGofile`
is written on every chunk, unthrottled, so successive report times are
not spaced more than 2000 ms apart. -/
theorem mirrorRelay_reporting_not_once_per_window :
    (uploadReportTrace [⟨2500, 100⟩, ⟨3000, 200⟩] ⟨0, 0⟩).map reportTime =
        [2500, 2500, 3000] ∧
      ¬ List.Chain' (fun a b => a + 2000 < b)
        ((uploadReportTrace [⟨2500, 100⟩, ⟨3000, 200⟩] ⟨0, 0⟩).map reportTime) := by
  have hmap : (uploadReportTrace [⟨2500, 100⟩, ⟨3000, 200⟩] ⟨0, 0⟩).map reportTime =
      [2500, 2500, 3000] := by decide
  refine ⟨hmap, ?_⟩
  intro hchain
  rw [hmap] at hchain
  have hlt := (List.chain'_cons.mp hchain).1
  omega

/-- C8 (amended): only the speed-report channel of the mirror upload is
throttled — its emission times exceed the previous speed report
(initially `lastProgressTime`) by strictly more than 2000 ms, however
many chunks arrive in between — while the "Uploaded" progress line is
written once per chunk, unthrottled. -/
theorem mirrorRelay_speed_reports_throttled (chunks : List UploadChunk) (st : ThrottleState) :
    List.Chain (fun a b => a + 2000 < b) st.lastProgressTime
        ((uploadReportTrace chunks st).filterMap speedTime) ∧
      (uploadReportTrace chunks st).countP isChunkLine = chunks.length := by
  induction chunks generalizing st with
  | nil => exact ⟨List.Chain.nil, rfl⟩
  | cons c rest ih =>
      by_cases h : 2000 < c.now - st.lastProgressTime
      · obtain ⟨hchain, hcount⟩ := ih ⟨c.now, c.uploaded⟩
        constructor
        · simp only [uploadReportTrace, if_pos h, List.filterMap_cons, speedTime]
          exact List.Chain.cons (by omega) hchain
        · simp [uploadReportTrace, if_pos h, List.countP_cons, isChunkLine] at hcount ⊢
          omega
      · obtain ⟨hchain, hcount⟩ := ih st
        constructor
        · simpa only [uploadReportTrace, if_neg h, List.filterMap_cons, speedTime]
            using hchain
        · simp [uploadReportTrace, if_neg h, List.countP_cons, isChunkLine] at hcount ⊢
          omega

/-- C9 (counterexample): `transformModel` is not the identity on every
identifier absent from the rewrite table. `"toString"` is not an own
entry of `MODEL_TRANSFORMATIONS`, yet the bracket lookup finds the
truthy inherited `Object.prototype.toString` function, so `||` keeps it:
`transformed` is not the input string and `wasTransformed = true`. -/
theorem transformModel_inherited_member_not_identity :
    MODEL_TRANSFORMATIONS.lookup "toString" = none ∧
      (transformModel "toString").transformed ≠ JsValue.str "toString" ∧
      (transformModel "toString").wasTransformed = true := by
  refine ⟨by decide, ?_, by decide⟩
  decide

/-- C9 (amended): for every identifier absent from the rewrite table that
is not the name of an inherited `Object.prototype` member,
`transformModel` returns the identifier unchanged and reports
`wasTransformed = false`. -/
theorem transformModel_identity_off_table (m : String)
    (h : MODEL_TRANSFORMATIONS.lookup m = none)
    (hp : OBJECT_PROTOTYPE_KEYS.contains m = false) :
    (transformModel m).transformed = JsValue.str m ∧
      (transformModel m).wasTransformed = false := by
  have hp' : m ∉ OBJECT_PROTOTYPE_KEYS := by simpa using hp
  simp [transformModel, jsObjectGet, jsOr, h, hp']

/-- C9 (witness): the amended theorem evaluated at `"SM-G998B"`, an
identifier neither in the rewrite table nor inherited from
`Object.prototype`. -/
theorem transformModel_identity_off_table_inst :
    MODEL_TRANSFORMATIONS.lookup "SM-G998B" = none ∧
      OBJECT_PROTOTYPE_KEYS.contains "SM-G998B" = false ∧
      (transformModel "SM-G998B").transformed = JsValue.str "SM-G998B" ∧
      (transformModel "SM-G998B").wasTransformed = false :=
  ⟨by decide, by decide,
   transformModel_identity_off_table "SM-G998B" (by decide) (by decide)⟩

/-- C10: on the authenticated path the extraction output directory is
named from the original (pre-transformation) model identifier and the
region, for every model — including rewritten ones — while the network
requests use the transformed identifier; concretely, for the rewritten
model `"SM-S906B"` the requests go out as `"SM-S916B"` but the folder is
still `"SM-S906B_EUX/"`. -/
theorem outputFolder_named_from_original_model :
    (∀ model region : String,
        mainOutputFolder model region = model ++ "_" ++ region ++ "/" ∧
          mainRequestModel model = (transformModel model).transformed) ∧
      mainRequestModel "SM-S906B" = "SM-S916B" ∧
      mainOutputFolder "SM-S906B" "EUX" = "SM-S906B_EUX/" := by
  refine ⟨fun model region => ⟨rfl, rfl⟩, by decide, by decide⟩

end Samfirm
